import Mathlib

/-!
Shallow embedding of the Auto-Update repository (src/app_quitter.py and
src/silent_update.py) for checking the natural-language specification.

Modelling conventions:
* Dates are integers counting days (the source parses `%Y-%m-%d` strings;
  only day differences matter to the logic).
* Plist files are modelled by association lists from full path strings to
  structured records; `plistlib.dump` overwrites a whole file, `os.remove`
  deletes it.
* External processes (jamfHelper, jamf, launchctl) are modelled by their
  observable inputs/outputs: the dialog subprocess is an oracle supplying
  its raw stdout and return code, and dispatching a jamf policy is logged
  as an event in a trace.
* Python `int()` applied to the dialog output is modelled by `pyInt`
  (strip surrounding whitespace, optional sign, decimal digits; anything
  else raises `ValueError`, modelled as `none`).
-/

namespace AutoUpdate

/-- Characters Python `str.strip` removes (the whitespace relevant here). -/
def isPyWS (c : Char) : Bool :=
  c = ' ' ∨ c = '\t' ∨ c = '\n' ∨ c = '\r'

/-- Strip leading and trailing whitespace from a character list. -/
def pyStrip (cs : List Char) : List Char :=
  ((cs.dropWhile isPyWS).reverse.dropWhile isPyWS).reverse

/-- Is `c` a decimal digit? -/
def isDig (c : Char) : Bool := '0' ≤ c ∧ c ≤ '9'

/-- Numeric value of a digit character. -/
def digVal (c : Char) : Nat := c.toNat - 48

/-- Parse a non-empty all-digit character list as a natural number. -/
def digitsToNat (cs : List Char) : Option Nat :=
  if cs ≠ [] ∧ cs.all isDig then
    some (cs.foldl (fun acc c => 10 * acc + digVal c) 0)
  else none

/-- Parse an optionally signed digit string. -/
def pyIntCore : List Char → Option Int
  | '-' :: rest => (digitsToNat rest).map (fun n => -(n : Int))
  | '+' :: rest => (digitsToNat rest).map (fun n => (n : Int))
  | cs => (digitsToNat cs).map (fun n => (n : Int))

/-- Model of Python `int(s)`: `none` models a raised `ValueError`. -/
def pyInt (s : String) : Option Int :=
  pyIntCore (pyStrip s.data)

/-- Model of `int(str(exit_code)[-1])`: the last decimal digit of the
rendered integer, which equals `natAbs % 10` (the final character of
Python `str` of an int is always its least-significant digit). -/
def lastDigit (n : Int) : Nat := n.natAbs % 10

/-- Model of Python `"{}".format(...).replace(" ", "")` applied to the
policy event when building file names: drop all space characters. -/
def stripSpaces (s : String) : String :=
  String.mk (s.data.filter (fun c => c ≠ ' '))

/-- Model of `os.path.join(a, b)` for the paths used here (`a` is never
empty and `b` is never absolute): insert a separator unless `a` already
ends with one. -/
def pathJoin (a b : String) : String :=
  if a.data.getLast? = some '/' then a ++ b else a ++ "/" ++ b

/-- Decimal digit character. -/
def digitChar (n : Nat) : Char := Char.ofNat (48 + n % 10)

/-- Fuel-driven decimal rendering loop (structural, so that the kernel
can evaluate it). -/
def decimalGo : Nat → Nat → List Char
  | 0, _ => []
  | fuel + 1, n =>
    if n < 10 then [digitChar n]
    else decimalGo fuel (n / 10) ++ [digitChar (n % 10)]

/-- Decimal rendering of a natural number (the epoch timestamp embedded
in LaunchDaemon file names). -/
def decimalRep (n : Nat) : List Char := decimalGo (n + 1) n

/-- One deferral-ledger plist: `{limit: ..., used: ...}` (the source
stores `used` either as the string "0" or as an int; both are read back
through `int()`, so an integer field is faithful). -/
structure LedgerRecord where
  limit : Int
  used : Int
  deriving DecidableEq, Repr

/-- One LaunchDaemon plist written by `set_deferral`: its path, the jamf
event in its `ProgramArguments`, and its `StartInterval`. -/
structure DaemonFile where
  path : String
  triggerEvent : String
  startInterval : Int
  deriving DecidableEq, Repr

/-- Which message a jamfHelper invocation displayed (the four message
templates defined at the top of app_quitter.py are pairwise distinct
strings). -/
inductive PKind
  | deferMsg
  | plainMsg
  | forceMsg
  | completeMsg
  deriving DecidableEq, Repr

/-- Observable external effects of one script run. -/
inductive Event
  | promptShown (k : PKind)
  | jamfPolicy (ev : String)
  | quitApp (bid : String) (force : Bool)
  | relaunch
  deriving DecidableEq, Repr

/-- Lookup in a path-keyed association list (the plist store). -/
def findFile {α : Type} : List (String × α) → String → Option α
  | [], _ => none
  | (k, v) :: t, p => if k = p then some v else findFile t p

/-- Overwrite (or create) the file at path `p`. -/
def setFile {α : Type} (l : List (String × α)) (p : String) (v : α) :
    List (String × α) :=
  (p, v) :: l.filter (fun q => q.1 ≠ p)

/-- Delete the file at path `p` (no error if absent; `os.remove` on a
missing path never happens in the modelled flows because existence is
checked first). -/
def eraseFile {α : Type} (l : List (String × α)) (p : String) :
    List (String × α) :=
  l.filter (fun q => q.1 ≠ p)

/-- The durable state touched by app_quitter.py, plus a trace of
observable external effects. -/
structure Sys where
  plists : List (String × LedgerRecord)
  receipts : List (String × Int)
  daemons : List DaemonFile
  events : List Event
  deriving DecidableEq, Repr

def Sys.setPlist (st : Sys) (p : String) (r : LedgerRecord) : Sys :=
  { st with plists := setFile st.plists p r }

def Sys.erasePlist (st : Sys) (p : String) : Sys :=
  { st with plists := eraseFile st.plists p }

def Sys.setReceipt (st : Sys) (p : String) (d : Int) : Sys :=
  { st with receipts := setFile st.receipts p d }

def Sys.log (st : Sys) (e : Event) : Sys :=
  { st with events := st.events ++ [e] }

/-- The jamf positional parameters and module-level configuration of
app_quitter.py (`APP_NAME` only appears inside message text and is not
needed by the control flow; `orgName` is the module global). -/
structure Config where
  APPS : List String
  PROMPT : Bool
  POLICY_EVENT : String
  FORCE_QUIT : Bool
  DEFER_POLICY_EVENT : String
  DEFER_LIMIT : Int
  orgName : String

/-- Fixed prefix of the glob pattern in `remove_daemons`:
`"/Library/LaunchDaemons/com.appUpdates.policydefer.*.{}.plist"`. -/
def daemonGlobPre : List Char :=
  "/Library/LaunchDaemons/com.appUpdates.policydefer.".data

/-- Suffix of that glob pattern for policy event `pe`. -/
def daemonGlobSuf (pe : String) : List Char :=
  ("." ++ stripSpaces pe ++ ".plist").data

/-- Does `path` match the `remove_daemons` glob for policy event `pe`?
`glob.glob` expands `*` within one path component, i.e. to any character
sequence not containing a slash.  The fixed parts of the pattern are
matched literally: this assumes the policy event itself contains no glob
metacharacters, which holds for jamf event names. -/
def matchesDaemonGlob (pe : String) (path : String) : Bool :=
  let pre := daemonGlobPre
  let suf := daemonGlobSuf pe
  let cs := path.data
  let rest := cs.drop pre.length
  let midLen := rest.length - suf.length
  cs.take pre.length == pre &&
  decide (suf.length ≤ rest.length) &&
  rest.drop midLen == suf &&
  (rest.take midLen).all (fun c => c ≠ '/')

/-- `remove_daemons(policy_event)`: delete every LaunchDaemon file whose
name matches the identifier-scoped glob. -/
def remove_daemons (pe : String) (ds : List DaemonFile) : List DaemonFile :=
  ds.filter (fun d => !matchesDaemonGlob pe d.path)

/-- Path of the LaunchDaemon created by `set_deferral` at epoch `t` for
policy event `pe`:
`"/Library/LaunchDaemons/com.appUpdates.policydefer.{t}.{pe}.plist"`. -/
def daemonPath (t : Nat) (pe : String) : String :=
  "/Library/LaunchDaemons/com.appUpdates.policydefer." ++
    String.mk (decimalRep t) ++ "." ++ stripSpaces pe ++ ".plist"

/-- `set_deferral(deferral_period, policy_event)`: remove all daemons for
the global `POLICY_EVENT`, then write one fresh uniquely-named daemon
whose `StartInterval` is the deferral period and whose program arguments
trigger `DEFER_POLICY_EVENT`.  `now` is the current epoch time. -/
def set_deferral (cfg : Config) (now : Nat) (period : Int)
    (policy_event : String) (st : Sys) : Sys :=
  let ds := remove_daemons cfg.POLICY_EVENT st.daemons
  { st with
    daemons := ds ++ [⟨daemonPath now policy_event, cfg.DEFER_POLICY_EVENT, period⟩] }

/-- The application-support directory prefix shared by the ledger, the
receipt, and the hard-coded appUpdates counter path. -/
def supportDir : String := "/Library/Application Support/"

/-- File name of the deferral ledger plist: `policydefer_{PE}.plist`. -/
def deferFileName (cfg : Config) : String :=
  "policydefer_" ++ stripSpaces cfg.POLICY_EVENT ++ ".plist"

/-- Path of the deferral ledger plist:
`os.path.join("/Library/Application Support/{orgName}", "policydefer_{PE}.plist")`. -/
def deferFilePath (cfg : Config) : String :=
  pathJoin (supportDir ++ cfg.orgName) (deferFileName cfg)

/-- Path of the install receipt plist:
`os.path.join("/Library/Application Support/{orgName}/receipts", "install_{PE}.plist")`. -/
def receiptFilePath (cfg : Config) : String :=
  pathJoin (supportDir ++ cfg.orgName ++ "/receipts")
    ("install_" ++ stripSpaces cfg.POLICY_EVENT ++ ".plist")

/-- The hard-coded path deleted by `run_update_policy`:
`"/Library/Application Support/appUpdates/policydefer_{PE}.plist"`. -/
def appUpdatesCounterPath (cfg : Config) : String :=
  supportDir ++ "appUpdates/" ++ deferFileName cfg

/-- `check_install_date()`: if a receipt exists and more than 120 days
have passed since the recorded date, set the (global) deferral limit to
0 for the rest of the process; otherwise leave it unchanged.  Returns
the new value of `DEFER_LIMIT`. -/
def check_install_date (cfg : Config) (today : Int) (st : Sys)
    (limit : Int) : Int :=
  match findFile st.receipts (receiptFilePath cfg) with
  | none => limit
  | some d => if 120 < today - d then 0 else limit

/-- `check_deferral_count()`: lazily create the ledger plist with
`{limit: DEFER_LIMIT, used: 0}`, load it into the `defer_count` global,
and report whether deferrals remain (`used < limit`).  Returns
(deferrals-available, loaded record, updated state).  `limit` is the
current value of the (possibly SLA-overridden) `DEFER_LIMIT` global. -/
def check_deferral_count (cfg : Config) (limit : Int) (st : Sys) :
    Bool × LedgerRecord × Sys :=
  let p := deferFilePath cfg
  let t : LedgerRecord × Sys :=
    match findFile st.plists p with
    | some r => (r, st)
    | none => (⟨limit, 0⟩, st.setPlist p ⟨limit, 0⟩)
  (decide (t.1.used < limit), t.1, t.2)

/-- The prompt-selection prelude of `user_prompt`: in the reopen branch
the passed prompt is kept; otherwise `check_deferral_count` runs and the
displayed message is overwritten with `DEFER_MESSAGE` or `MESSAGE`.
Returns (message shown, `defer_count` global, updated state); in the
reopen branch `defer_count` is never read afterwards, so a dummy record
stands in for it. -/
def promptSetup (cfg : Config) (limit : Int) (pArg : PKind)
    (reopen : Bool) (st : Sys) : PKind × LedgerRecord × Sys :=
  match reopen with
  | true => (pArg, ⟨limit, 0⟩, st)
  | false =>
    let t := check_deferral_count cfg limit st
    (if t.1 then PKind.deferMsg else PKind.plainMsg, t.2.1, t.2.2)

/-- Result of `user_prompt`: `ret = none` models the uncaught
`ValueError` that the line `deferral_seconds = int(out[:-1]) ...` can
raise outside the guarded `try` block. -/
structure UPOut where
  ret : Option Bool
  st : Sys
  deriving DecidableEq, Repr

/-- `user_prompt(prompt, bid, reopen_app)`.  `out` and `rc` are the raw
stdout and return code of the jamfHelper subprocess (a kill by the
300-second supervisory timer surfaces as unparseable/empty stdout and
return code -9); `now` is the epoch time used if a daemon is written. -/
def user_prompt (cfg : Config) (limit : Int) (pArg : PKind)
    (reopen : Bool) (out : String) (rc : Int) (now : Nat) (st : Sys) :
    UPOut :=
  let s := promptSetup cfg limit pArg reopen st
  let shown := s.1
  let rec0 := s.2.1
  let st2 := s.2.2.log (.promptShown shown)
  match pyInt out with
  | none =>
    -- except (ValueError, IndexError): defer one hour, return False
    ⟨some false, set_deferral cfg now 3600 cfg.POLICY_EVENT st2⟩
  | some exit_code =>
    match (if 1 < out.length then pyInt (out.dropRight 1) else some 0) with
    | none => ⟨none, st2⟩
    | some deferral_seconds =>
      if shown = PKind.plainMsg ∨ cfg.FORCE_QUIT = true then
        ⟨some true, st2⟩
      else if exit_code = 239 ∨ out = "" then
        ⟨some false, st2⟩
      else if lastDigit exit_code = 1 ∧ exit_code ≠ 1 ∧ reopen = false then
        let st3 := st2.setPlist (deferFilePath cfg) ⟨limit, rec0.used + 1⟩
        ⟨some false, set_deferral cfg now deferral_seconds cfg.POLICY_EVENT st3⟩
      else if rc = 0 then
        ⟨some true, if reopen then st2.log .relaunch else st2⟩
      else if lastDigit exit_code = 2 ∨ rc = -9 then
        ⟨some false, st2⟩
      else
        ⟨some false, st2⟩

/-- `write_install_date()`: record today's date in the receipt plist. -/
def write_install_date (cfg : Config) (today : Int) (st : Sys) : Sys :=
  st.setReceipt (receiptFilePath cfg) today

/-- `run_update_policy(event)`: no-op on an empty event; otherwise
delete the hard-coded appUpdates deferral counter if present, dispatch
the jamf policy, and write the install receipt. -/
def run_update_policy (cfg : Config) (today : Int) (ev : String)
    (st : Sys) : Sys :=
  if ev = "" then st
  else
    let st := st.erasePlist (appUpdatesCounterPath cfg)
    let st := st.log (.jamfPolicy ev)
    write_install_date cfg today st

/-- The poll loop of `check_for_zoom()`: `busy i` is whether the CptHost
process is found on poll `i`.  Returns at poll 9 with `true` if still
busy, at the first idle poll with `false` (falling off the loop returns
Python `None`, which the caller treats as false). -/
def zoomGo (busy : Nat → Bool) : Nat → Nat → Bool
  | 0, _ => false
  | fuel + 1, i =>
    if i = 9 ∧ busy i = true then true
    else if busy i = false then false
    else zoomGo busy fuel (i + 1)

/-- `check_for_zoom()`: up to 10 polls, 30 seconds apart. -/
def check_for_zoom (busy : Nat → Bool) : Bool :=
  zoomGo busy 10 0

/-- The host environment observed by one run of app_quitter.py:
whether each bundle ID is running at its check, the Zoom poll probe,
and — indexed by how many jamfHelper dialogs have been spawned so far —
each dialog's raw stdout, return code, and the epoch clock sampled if a
daemon is written during that negotiation. -/
structure Env where
  running : String → Bool
  zoomBusy : Nat → Bool
  dialogOut : Nat → String
  dialogRC : Nat → Int
  epoch : Nat → Nat

/-- `check_if_running(bid)`. -/
def check_if_running (env : Env) (bid : String) : Bool :=
  env.running bid

/-- How one run of the script ends: `sys.exit(0)`, the `for` loop over
`APPS` finishing normally, or an uncaught exception. -/
inductive RunOutcome
  | exited0
  | finishedLoop
  | crashed
  deriving DecidableEq, Repr

/-- The tail of one loop iteration of `run()` after `quit_application`:
`run_update_policy`, the completion/reopen prompt, `remove_daemons`.
Returns (crashed?, state).  `k` indexes the completion dialog. -/
def afterQuitSteps (cfg : Config) (env : Env) (today : Int) (limit : Int)
    (k : Nat) (st : Sys) : Bool × Sys :=
  let st := run_update_policy cfg today cfg.POLICY_EVENT st
  let r := user_prompt cfg limit .completeMsg true (env.dialogOut k)
    (env.dialogRC k) (env.epoch k) st
  match r.ret with
  | none => (true, r.st)
  | some _ =>
    (false, { r.st with daemons := remove_daemons cfg.POLICY_EVENT r.st.daemons })

/-- The `for bid in APPS` loop of `run()`.  `limit` threads the mutable
`DEFER_LIMIT` global (which `check_install_date` may zero), `k` counts
jamfHelper dialogs spawned so far. -/
def runLoop (cfg : Config) (env : Env) (today : Int) :
    List String → Int → Nat → Sys → RunOutcome × Sys
  | [], _, _, st => (.finishedLoop, st)
  | bid :: rest, limit, k, st =>
    if check_if_running env bid = false then
      let st := run_update_policy cfg today cfg.POLICY_EVENT st
      (.exited0, { st with daemons := remove_daemons cfg.POLICY_EVENT st.daemons })
    else
      let limit := check_install_date cfg today st limit
      if cfg.FORCE_QUIT then
        let r := user_prompt cfg limit .forceMsg false (env.dialogOut k)
          (env.dialogRC k) (env.epoch k) st
        match r.ret with
        | none => (.crashed, r.st)
        | some _ =>
          let st := r.st.log (.quitApp bid true)
          let t := afterQuitSteps cfg env today limit (k + 1) st
          if t.1 then (.crashed, t.2)
          else runLoop cfg env today rest limit (k + 2) t.2
      else
        if check_for_zoom env.zoomBusy = true then
          (.exited0, set_deferral cfg (env.epoch k) 3600 cfg.POLICY_EVENT st)
        else
          let r := user_prompt cfg limit .deferMsg false (env.dialogOut k)
            (env.dialogRC k) (env.epoch k) st
          match r.ret with
          | none => (.crashed, r.st)
          | some b =>
            if b = true ∨ cfg.PROMPT = false then
              let st := r.st.log (.quitApp bid false)
              let t := afterQuitSteps cfg env today limit (k + 1) st
              if t.1 then (.crashed, t.2)
              else runLoop cfg env today rest limit (k + 2) t.2
            else (.exited0, r.st)

/-- `run()`: directory creation for the receipt path is a filesystem
no-op in this model; then the per-bundle-ID loop runs with the
configured `DEFER_LIMIT` and no dialogs yet spawned. -/
def run (cfg : Config) (env : Env) (today : Int) (st : Sys) :
    RunOutcome × Sys :=
  runLoop cfg env today cfg.APPS cfg.DEFER_LIMIT 0 st

/-- The polling loop of `quit_application(bid, force)`.  `alive i` is
whether `get_app(bid)` at tick `i` yields a live (present, not yet
terminated) application; `notTerm i` is whether `app.isTerminated()` is
still false when re-sampled after the quit signal of tick `i`.  Returns
the list of (tick, forced?) terminate signals sent and the tick at
which the loop stopped. -/
def quitGo (alive notTerm : Nat → Bool) (force : Bool) :
    Nat → Nat → List (Nat × Bool) × Nat
  | 0, i => ([], i)
  | fuel + 1, i =>
    if alive i = false then ([], i)
    else
      let esc := if 10 ≤ i ∧ notTerm i = true then [(i, true)] else []
      let t := quitGo alive notTerm force fuel (i + 1)
      ((i, force) :: esc ++ t.1, t.2)

/-- `quit_application(bid, force)`: 30 one-second ticks. -/
def quit_application (alive notTerm : Nat → Bool) (force : Bool) :
    List (Nat × Bool) × Nat :=
  quitGo alive notTerm force 30 0

/-! ## silent_update.py -/

/-- The host environment observed by silent_update.py: whether each
bundle ID has a running instance, and the installed `CFBundleVersion`
and `CFBundleShortVersionString` resolved for a bundle ID via
mdfind/defaults. -/
structure SUEnv where
  running : String → Bool
  bundleVersion : String → String
  bundleShortVersion : String → String

/-- `check_version(bid)`: true iff the supplied target version differs
from both installed version strings. -/
def su_check_version (ver : String) (env : SUEnv) (bid : String) : Bool :=
  decide (ver ≠ env.bundleVersion bid) && decide (ver ≠ env.bundleShortVersion bid)

/-- How silent_update.py's `main()` ends: `sys.exit(0)` from inside the
loop because an app was running; the install policy dispatched; recon
then `sys.exit(0)` because versions matched; or the `NameError` crash
that an empty `APPS` list would cause (`app` unbound in the `else`). -/
inductive SUOutcome
  | exitRunning
  | installed
  | reconExit
  | crashedEmpty
  deriving DecidableEq, Repr

/-- The `for app in APPS` body: `sys.exit(0)` at the first running app.
Returns whether the loop exited early. -/
def suLoopExits (env : SUEnv) : List String → Bool
  | [] => false
  | a :: rest => if env.running a = true then true else suLoopExits env rest

/-- `main()` of silent_update.py.  The `for`/`else` runs the `else`
block only when the loop was not left early; there `app` still holds
the last element of `APPS`. -/
def su_main (apps : List String) (ver : String) (env : SUEnv) : SUOutcome :=
  if suLoopExits env apps = true then .exitRunning
  else
    match apps.getLast? with
    | none => .crashedEmpty
    | some a => if su_check_version ver env a = true then .installed else .reconExit

/-! ## Concrete fixtures used to instantiate theorems with hypotheses -/

/-- A sample configuration: one bundle ID, prompting allowed, policy
event "pe", not forced, deferral policy event "dpe", limit 14, and the
source's shipped `orgName = ''`. -/
def sampleCfg : Config :=
  ⟨["com.example.app"], true, "pe", false, "dpe", 14, ""⟩

/-- A sample ledger record with no deferrals used. -/
def sampleLedger : LedgerRecord := ⟨14, 0⟩

/-- A sample state: the ledger file exists, no receipts, no daemons. -/
def sampleSt : Sys := ⟨[(deferFilePath sampleCfg, sampleLedger)], [], [], []⟩

/-- A sample environment: the app is running, no Zoom call, every
dialog answers "0" with return code 0, epoch clock 7. -/
def sampleEnv : Env :=
  ⟨fun _ => true, fun _ => false, fun _ => "0", fun _ => 0, fun _ => 7⟩

/-- A sample environment whose dialog is killed: the app is running, no
Zoom call, empty dialog stdout, return code -9, epoch clock 7. -/
def sampleEnvKilled : Env :=
  ⟨fun _ => true, fun _ => false, fun _ => "", fun _ => -9, fun _ => 7⟩

/-- A sample silent-update environment: only "com.r" is running, every
app's installed versions are "1.0" / "1.0.0". -/
def sampleSUEnv : SUEnv :=
  ⟨fun b => b == "com.r", fun _ => "1.0", fun _ => "1.0.0"⟩

/-- A configuration whose organization name is "appUpdates/" — distinct
from "appUpdates" as a string, yet `os.path.join` collapses the double
separator so its ledger path coincides with the hard-coded counter path
deleted on install. -/
def cfgSlash : Config :=
  ⟨["com.example.app"], true, "pe", false, "dpe", 14, "appUpdates/"⟩

/-- A sample environment in which no application is running. -/
def sampleEnvIdle : Env :=
  ⟨fun _ => false, fun _ => false, fun _ => "0", fun _ => 0, fun _ => 7⟩

/-- `sampleCfg` with the PROMPT parameter set to "false". -/
def cfgNoPrompt : Config :=
  ⟨["com.example.app"], false, "pe", false, "dpe", 14, ""⟩

/-- The empty initial state: no plists, receipts, daemons or events. -/
def emptySt : Sys := ⟨[], [], [], []⟩

/-- A state for the SLA scenario: ledger `{limit: 14, used: 0}` exists
and the install receipt records day -121, i.e. 121 days before day 0. -/
def staleReceiptSt : Sys :=
  ⟨[(deferFilePath sampleCfg, ⟨14, 0⟩)],
    [(receiptFilePath sampleCfg, -121)], [], []⟩

/-! ## Basic lemmas about the store and string model -/

theorem strData_append (a b : String) : (a ++ b).data = a.data ++ b.data := rfl

theorem strEq_of_data {a b : String} (h : a.data = b.data) : a = b := by
  cases a; cases b; simp_all

theorem findFile_setFile_self {α : Type} (l : List (String × α)) (p : String)
    (v : α) : findFile (setFile l p v) p = some v := by
  simp [setFile, findFile]

theorem findFile_filter_ne {α : Type} (l : List (String × α)) (p q : String)
    (h : q ≠ p) :
    findFile (l.filter (fun x => x.1 ≠ p)) q = findFile l q := by
  induction l with
  | nil => rfl
  | cons hd tl ih =>
    obtain ⟨k, v⟩ := hd
    simp only [ne_eq, decide_not] at ih ⊢
    by_cases hk : k = p
    · have hkq : ¬ k = q := fun hh => h (by rw [← hh, hk])
      simp [List.filter_cons, hk, hkq, findFile, ih, Ne.symm h]
    · by_cases hkq : k = q
      · simp [List.filter_cons, hk, hkq, findFile, h]
      · simp [List.filter_cons, hk, hkq, findFile, ih]

theorem findFile_setFile_ne {α : Type} (l : List (String × α)) (p q : String)
    (v : α) (h : q ≠ p) : findFile (setFile l p v) q = findFile l q := by
  simp only [setFile, findFile]
  rw [if_neg (fun hh => h hh.symm)]
  exact findFile_filter_ne l p q h

theorem findFile_eraseFile_ne {α : Type} (l : List (String × α)) (p q : String)
    (h : q ≠ p) : findFile (eraseFile l p) q = findFile l q :=
  findFile_filter_ne l p q h

theorem findFile_eraseFile_self {α : Type} (l : List (String × α)) (p : String) :
    findFile (eraseFile l p) p = none := by
  induction l with
  | nil => rfl
  | cons hd tl ih =>
    obtain ⟨k, v⟩ := hd
    simp only [eraseFile, ne_eq, decide_not] at ih ⊢
    by_cases hk : k = p
    · simp [List.filter_cons, hk, findFile, ih]
    · simp [List.filter_cons, hk, findFile, ih]

/-! ## Lemmas about the prompt prelude -/

theorem promptSetup_avail (cfg : Config) (limit : Int) (pArg : PKind)
    (st : Sys) (r : LedgerRecord)
    (hled : findFile st.plists (deferFilePath cfg) = some r)
    (h : r.used < limit) :
    promptSetup cfg limit pArg false st = (.deferMsg, r, st) := by
  simp [promptSetup, check_deferral_count, hled, h]

theorem promptSetup_exhausted (cfg : Config) (limit : Int) (pArg : PKind)
    (st : Sys) (r : LedgerRecord)
    (hled : findFile st.plists (deferFilePath cfg) = some r)
    (h : ¬ r.used < limit) :
    promptSetup cfg limit pArg false st = (.plainMsg, r, st) := by
  simp [promptSetup, check_deferral_count, hled, h]

theorem promptSetup_reopen (cfg : Config) (limit : Int) (pArg : PKind)
    (st : Sys) : promptSetup cfg limit pArg true st = (pArg, ⟨limit, 0⟩, st) :=
  rfl

/-- On an unparseable dialog result, `user_prompt` always takes the
`except` branch: schedule a one-hour deferral daemon, return `False`,
and leave the ledger as the prompt prelude left it. -/
theorem user_prompt_unparseable (cfg : Config) (limit : Int) (pArg : PKind)
    (reopen : Bool) (out : String) (rc : Int) (now : Nat) (st : Sys)
    (h : pyInt out = none) :
    user_prompt cfg limit pArg reopen out rc now st =
      ⟨some false,
        set_deferral cfg now 3600 cfg.POLICY_EVENT
          ((promptSetup cfg limit pArg reopen st).2.2.log
            (.promptShown (promptSetup cfg limit pArg reopen st).1))⟩ := by
  unfold user_prompt
  rw [h]

/-! ## C5: exit signal 6001 yields a 600-second deferral -/

/-- C5: for a non-forced, non-reopen negotiation with deferrals
remaining, a dialog exit signal of 6001 returns not-proceed, increments
the persisted `used` count by exactly 1 (writing it back together with
the current limit), and schedules a retry daemon whose `StartInterval`
is 600 seconds. -/
theorem c5_signal_6001_defers_600 (cfg : Config) (limit : Int)
    (r : LedgerRecord) (st : Sys) (now : Nat) (rc : Int)
    (hforce : cfg.FORCE_QUIT = false)
    (hled : findFile st.plists (deferFilePath cfg) = some r)
    (havail : r.used < limit) :
    user_prompt cfg limit .deferMsg false "6001" rc now st =
      ⟨some false,
        set_deferral cfg now 600 cfg.POLICY_EVENT
          ((st.log (.promptShown .deferMsg)).setPlist (deferFilePath cfg)
            ⟨limit, r.used + 1⟩)⟩ := by
  unfold user_prompt
  rw [promptSetup_avail cfg limit _ st r hled havail]
  rw [show pyInt "6001" = some 6001 from rfl]
  rw [show (if 1 < ("6001" : String).length
      then pyInt (("6001" : String).dropRight 1) else some 0) = some 600 from rfl]
  dsimp only
  rw [if_neg (by simp [hforce]), if_neg (by decide), if_pos (by decide)]

/-- Witness for C5 at a concrete input. -/
theorem c5_signal_6001_defers_600_witness :
    user_prompt sampleCfg 14 .deferMsg false "6001" 0 111 sampleSt =
      ⟨some false,
        set_deferral sampleCfg 111 600 sampleCfg.POLICY_EVENT
          ((sampleSt.log (.promptShown .deferMsg)).setPlist
            (deferFilePath sampleCfg) ⟨14, sampleLedger.used + 1⟩)⟩ :=
  c5_signal_6001_defers_600 sampleCfg 14 sampleLedger sampleSt 111 0
    rfl (by decide) (by decide)

/-! ## C2: empty dialog result -/

/-- Counterexample to C2 as stated: with a non-forced update, a running
dialog cycle, and an empty dialog result, the claim says the cycle
exits quietly with no retry timer scheduled; but `int(b"")` raises
`ValueError` before the `not out` check is reached, so the unparseable
path runs and a 3600-second retry daemon IS created (starting from an
empty daemon directory, the daemon list afterwards is non-empty). -/
theorem c2_empty_result_counterexample :
    (user_prompt sampleCfg 14 .deferMsg false "" 0 111 sampleSt).ret =
        some false ∧
    (user_prompt sampleCfg 14 .deferMsg false "" 0 111 sampleSt).st.daemons =
        [⟨daemonPath 111 "pe", "dpe", 3600⟩] ∧
    (user_prompt sampleCfg 14 .deferMsg false "" 0 111 sampleSt).st.daemons ≠
        [] := by
  refine ⟨?_, ?_, ?_⟩ <;> decide

/-- On an empty dialog result, the negotiation returns not-proceed and
charges no deferral (the ledger plist is untouched), but — because the
empty result takes the unparseable-exit-code path — a 1-hour (3600 s)
retry daemon is written. -/
theorem user_prompt_empty_result (cfg : Config) (limit : Int) (pArg : PKind)
    (st : Sys) (r : LedgerRecord) (now : Nat) (rc : Int)
    (hled : findFile st.plists (deferFilePath cfg) = some r) :
    user_prompt cfg limit pArg false "" rc now st =
      ⟨some false,
        set_deferral cfg now 3600 cfg.POLICY_EVENT
          (st.log (.promptShown
            (if r.used < limit then .deferMsg else .plainMsg)))⟩ := by
  rw [user_prompt_unparseable cfg limit pArg false "" rc now st rfl]
  by_cases h : r.used < limit
  · rw [promptSetup_avail cfg limit pArg st r hled h, if_pos h]
  · rw [promptSetup_exhausted cfg limit pArg st r hled h, if_neg h]

/-- C2 amended: when the dialog subprocess returns an empty result and
the update is not forced (prompting enabled), the negotiation outcome is
not-proceed: the cycle exits with status 0, the target is not
terminated, no install is dispatched, and no deferral is charged (the
final state differs from the initial one only by one logged prompt
event and the daemon directory) — but a 1-hour (3600-second) retry
timer IS scheduled, because the empty result takes the
unparseable-exit-code path before the empty-result check is reached. -/
theorem c2_empty_result_amended (cfg : Config) (env : Env)
    (today : Int) (st : Sys) (r : LedgerRecord) (bid : String)
    (rest : List String)
    (happs : cfg.APPS = bid :: rest)
    (hrun : env.running bid = true)
    (hforce : cfg.FORCE_QUIT = false)
    (hpr : cfg.PROMPT = true)
    (hzoom : env.zoomBusy 0 = false)
    (hout : env.dialogOut 0 = "")
    (hled : findFile st.plists (deferFilePath cfg) = some r) :
    ∃ k : PKind,
      run cfg env today st =
        (.exited0,
          set_deferral cfg (env.epoch 0) 3600 cfg.POLICY_EVENT
            (st.log (.promptShown k))) := by
  have hout2 : pyInt (env.dialogOut 0) = none := by rw [hout]; rfl
  have hz : check_for_zoom env.zoomBusy = false := by
    simp [check_for_zoom, zoomGo, hzoom]
  set limit1 := check_install_date cfg today st cfg.DEFER_LIMIT with hlim
  refine ⟨if r.used < limit1 then .deferMsg else .plainMsg, ?_⟩
  unfold run
  rw [happs]
  unfold runLoop
  rw [if_neg (by simp [check_if_running, hrun])]
  dsimp only
  rw [hforce]
  rw [if_neg (by simp)]
  rw [hz]
  rw [if_neg (by simp)]
  rw [user_prompt_unparseable _ _ _ _ _ _ _ _ hout2]
  dsimp only
  rw [hpr]
  rw [if_neg (by simp)]
  by_cases h : r.used < limit1
  · rw [promptSetup_avail cfg limit1 _ st r hled h, if_pos h]
  · rw [promptSetup_exhausted cfg limit1 _ st r hled h, if_neg h]

/-- Witness for the amended C2 at a concrete input (ledger with 5 of 14
deferrals already used, dialog closed with empty output). -/
theorem c2_empty_result_amended_witness :
    ∃ k : PKind,
      run sampleCfg sampleEnvKilled 0
          ⟨[(deferFilePath sampleCfg, ⟨14, 5⟩)], [], [], []⟩ =
        (.exited0,
          set_deferral sampleCfg (sampleEnvKilled.epoch 0) 3600
            sampleCfg.POLICY_EVENT
            ((⟨[(deferFilePath sampleCfg, ⟨14, 5⟩)], [], [], []⟩ : Sys).log
              (.promptShown k))) :=
  c2_empty_result_amended sampleCfg sampleEnvKilled 0
    ⟨[(deferFilePath sampleCfg, ⟨14, 5⟩)], [], [], []⟩ ⟨14, 5⟩
    "com.example.app" [] rfl rfl rfl rfl rfl rfl (by decide)

/-! ## C3: unparseable dialog result -/

/-- C3: for a non-forced negotiation (prompting enabled) whose raw
dialog result cannot be parsed as a number — including a dialog killed
by the 300-second supervisory timer, which yields empty stdout — the
orchestrator exits the cycle with status 0 after scheduling a 3600-second
retry daemon; the final state differs from the initial one only by the
replaced daemon directory and one logged prompt event, so the persisted
`used` count is unchanged and no install policy is dispatched. -/
theorem c3_unparseable_one_hour_retry (cfg : Config) (env : Env)
    (today : Int) (st : Sys) (r : LedgerRecord) (bid : String)
    (rest : List String)
    (happs : cfg.APPS = bid :: rest)
    (hrun : env.running bid = true)
    (hforce : cfg.FORCE_QUIT = false)
    (hpr : cfg.PROMPT = true)
    (hzoom : env.zoomBusy 0 = false)
    (hout : pyInt (env.dialogOut 0) = none)
    (hled : findFile st.plists (deferFilePath cfg) = some r) :
    ∃ k : PKind,
      run cfg env today st =
        (.exited0,
          set_deferral cfg (env.epoch 0) 3600 cfg.POLICY_EVENT
            (st.log (.promptShown k))) := by
  have hz : check_for_zoom env.zoomBusy = false := by
    simp [check_for_zoom, zoomGo, hzoom]
  set limit1 := check_install_date cfg today st cfg.DEFER_LIMIT with hlim
  refine ⟨if r.used < limit1 then .deferMsg else .plainMsg, ?_⟩
  unfold run
  rw [happs]
  unfold runLoop
  rw [if_neg (by simp [check_if_running, hrun])]
  dsimp only
  rw [hforce]
  rw [if_neg (by simp)]
  rw [hz]
  rw [if_neg (by simp)]
  rw [user_prompt_unparseable _ _ _ _ _ _ _ _ hout]
  dsimp only
  rw [hpr]
  rw [if_neg (by simp)]
  by_cases h : r.used < limit1
  · rw [promptSetup_avail cfg limit1 _ st r hled h, if_pos h]
  · rw [promptSetup_exhausted cfg limit1 _ st r hled h, if_neg h]

/-- Witness for C3 at a concrete input (dialog killed: empty stdout,
return code -9). -/
theorem c3_unparseable_one_hour_retry_witness :
    ∃ k : PKind,
      run sampleCfg sampleEnvKilled 0 sampleSt =
        (.exited0,
          set_deferral sampleCfg (sampleEnvKilled.epoch 0) 3600
            sampleCfg.POLICY_EVENT (sampleSt.log (.promptShown k))) :=
  c3_unparseable_one_hour_retry sampleCfg sampleEnvKilled 0 sampleSt
    sampleLedger "com.example.app" [] rfl rfl rfl rfl rfl rfl (by decide)

/-! ## C7: termination controller -/

theorem quitGo_stops_early (alive notTerm : Nat → Bool) (k : Nat)
    (hk : k < 10)
    (hbefore : ∀ j, j < k → alive j = true)
    (hstop : alive k = false) :
    ∀ fuel i, i + fuel = 30 → i ≤ k →
      quitGo alive notTerm false fuel i =
        ((List.range' i (k - i)).map (fun j => (j, false)), k) := by
  intro fuel
  induction fuel with
  | zero =>
    intro i h30 hik
    omega
  | succ n ih =>
    intro i h30 hik
    rcases Nat.lt_or_ge i k with hlt | hge
    · have ha : alive i = true := hbefore i hlt
      have h10 : ¬ (10 ≤ i ∧ notTerm i = true) := by omega
      have hsplit : k - i = (k - (i + 1)) + 1 := by omega
      rw [quitGo, ha, ih (i + 1) (by omega) (by omega), hsplit]
      simp [List.range'_succ, h10]
    · have hik2 : i = k := by omega
      subst hik2
      rw [quitGo, hstop]
      simp

theorem quitGo_never_stops (alive notTerm : Nat → Bool)
    (halive : ∀ j, alive j = true) (hnt : ∀ j, notTerm j = true) :
    ∀ fuel i,
      (quitGo alive notTerm false fuel i).2 = i + fuel ∧
      ∀ j, i ≤ j → j < i + fuel → 10 ≤ j →
        (j, true) ∈ (quitGo alive notTerm false fuel i).1 := by
  intro fuel
  induction fuel with
  | zero =>
    intro i
    constructor
    · rfl
    · intro j h1 h2
      omega
  | succ n ih =>
    intro i
    rw [quitGo, halive i]
    constructor
    · simpa using (ih (i + 1)).1.trans (by omega)
    · intro j h1 h2 h10
      by_cases hji : j = i
      · subst hji
        simp [h10, hnt j]
      · have hmem := (ih (i + 1)).2 j (by omega) (by omega) h10
        simp [hmem]

/-- C7: in the non-forced termination loop, (1) if the target stops
being a live running app at tick `k < 10`, the loop exits at tick `k`
having sent exactly one graceful (never forced) signal at each earlier
tick; (2) if the target never stops running, a forced signal is sent on
every tick from 10 through 29 and the loop ends at tick 30 (normal
return, no error). -/
theorem c7_termination_controller (alive notTerm : Nat → Bool) :
    (∀ k, k < 10 → (∀ j, j < k → alive j = true) → alive k = false →
      quit_application alive notTerm false =
        ((List.range k).map (fun j => (j, false)), k)) ∧
    ((∀ j, alive j = true) → (∀ j, notTerm j = true) →
      (quit_application alive notTerm false).2 = 30 ∧
      ∀ j, 10 ≤ j → j < 30 →
        (j, true) ∈ (quit_application alive notTerm false).1) := by
  constructor
  · intro k hk hb hs
    have h := quitGo_stops_early alive notTerm k hk hb hs 30 0 rfl (by omega)
    simpa [quit_application, List.range_eq_range'] using h
  · intro ha hn
    have h := quitGo_never_stops alive notTerm ha hn 30 0
    exact ⟨h.1, fun j h10 h30 => h.2 j (by omega) (by omega) h10⟩

/-- Witness for C7 at concrete inputs: a target that dies at tick 3
(graceful signals at ticks 0-2 only), and a target that never dies
(tick 30 exit, forced signal at tick 17 among others). -/
theorem c7_termination_controller_witness :
    (quit_application (fun i => decide (i < 3)) (fun _ => true) false =
      ((List.range 3).map (fun j => (j, false)), 3)) ∧
    ((quit_application (fun _ => true) (fun _ => true) false).2 = 30 ∧
      (17, true) ∈ (quit_application (fun _ => true) (fun _ => true) false).1) := by
  constructor
  · exact (c7_termination_controller (fun i => decide (i < 3))
      (fun _ => true)).1 3 (by decide) (by decide) (by decide)
  · have h := (c7_termination_controller (fun _ => true) (fun _ => true)).2
      (fun _ => rfl) (fun _ => rfl)
    exact ⟨h.1, h.2 17 (by omega) (by omega)⟩

/-! ## C10: silent updater -/

theorem suLoopExits_eq_any (env : SUEnv) (apps : List String) :
    suLoopExits env apps = apps.any env.running := by
  induction apps with
  | nil => rfl
  | cons a rest ih =>
    by_cases h : env.running a = true
    · simp [suLoopExits, h]
    · simp only [Bool.not_eq_true] at h
      simp [suLoopExits, h, ih]

/-- C10: in silent_update.py, (1) if any listed bundle ID has a running
instance the process exits 0 from inside the loop, before the install
policy can run; (2) the install policy runs exactly when no listed app
is running and `check_version` — evaluated only on the LAST bundle ID
of the list — reports that the target version differs from both
installed version strings of that last bundle ID. -/
theorem c10_silent_updater (apps : List String) (ver : String)
    (env : SUEnv) :
    (apps.any env.running = true → su_main apps ver env = .exitRunning) ∧
    (su_main apps ver env = .installed ↔
      apps.any env.running = false ∧
      ∃ a, apps.getLast? = some a ∧ su_check_version ver env a = true) := by
  constructor
  · intro h
    simp [su_main, suLoopExits_eq_any, h]
  · unfold su_main
    rw [suLoopExits_eq_any]
    by_cases h : apps.any env.running = true
    · simp [h]
    · simp only [Bool.not_eq_true] at h
      rw [h]
      simp only [Bool.false_eq_true, if_false, h, true_and]
      match hlast : apps.getLast? with
      | none => simp
      | some a =>
        by_cases hv : su_check_version ver env a = true
        · simp [hv]
        · simp only [Bool.not_eq_true] at hv
          simp [hv]

/-- Witness for C10 at concrete inputs: a list with a running app exits
early; a list with no running app installs via a version check against
the last bundle ID. -/
theorem c10_silent_updater_witness :
    su_main ["com.a", "com.r"] "2.0" sampleSUEnv = .exitRunning ∧
    su_main ["com.a", "com.b"] "2.0" sampleSUEnv = .installed := by
  constructor
  · exact (c10_silent_updater ["com.a", "com.r"] "2.0" sampleSUEnv).1
      (by decide)
  · exact (c10_silent_updater ["com.a", "com.b"] "2.0" sampleSUEnv).2.mpr
      ⟨by decide, "com.b", rfl, by decide⟩

/-! ## C6: at most one live retry daemon per identifier -/

theorem digitChar_ne_slash (n : Nat) : digitChar n ≠ '/' := by
  unfold digitChar
  have h : n % 10 < 10 := Nat.mod_lt _ (by norm_num)
  set m := n % 10 with hm
  interval_cases m <;> decide

theorem decimalGo_no_slash :
    ∀ fuel n, (decimalGo fuel n).all (fun c => c ≠ '/') = true := by
  intro fuel
  induction fuel with
  | zero => intro n; rfl
  | succ m ih =>
    intro n
    unfold decimalGo
    by_cases h : n < 10
    · simp [h, digitChar_ne_slash n]
    · rw [if_neg h, List.all_append]
      rw [ih (n / 10)]
      simp [digitChar_ne_slash (n % 10)]

theorem globMatch_concat (pe : String) (mid : List Char)
    (hmid : mid.all (fun c => c ≠ '/') = true) :
    matchesDaemonGlob pe
      (String.mk (daemonGlobPre ++ (mid ++ daemonGlobSuf pe))) = true := by
  unfold matchesDaemonGlob
  dsimp only
  simp only [List.take_left, List.drop_left, List.length_append,
    Nat.add_sub_cancel]
  simp only [List.all_eq_true, decide_eq_true_eq] at hmid
  simp only [ne_eq] at hmid
  simp [Nat.le_add_left]
  exact hmid

theorem daemonPath_eq_concat (t : Nat) (pe : String) :
    daemonPath t pe =
      String.mk (daemonGlobPre ++ (decimalRep t ++ daemonGlobSuf pe)) := by
  apply strEq_of_data
  simp [daemonPath, daemonGlobPre, daemonGlobSuf, strData_append,
    List.append_assoc]

/-- The daemon file created by `set_deferral` matches the very glob that
`remove_daemons` uses for the same policy event (its epoch-time middle
component contains no slash). -/
theorem daemonPath_matches (t : Nat) (pe : String) :
    matchesDaemonGlob pe (daemonPath t pe) = true := by
  rw [daemonPath_eq_concat]
  exact globMatch_concat pe (decimalRep t) (decimalGo_no_slash (t + 1) t)

theorem filter_remove_daemons (pe : String) (ds : List DaemonFile) :
    (remove_daemons pe ds).filter (fun d => matchesDaemonGlob pe d.path) =
      [] := by
  unfold remove_daemons
  rw [List.filter_filter]
  have hfalse : ∀ d : DaemonFile,
      (matchesDaemonGlob pe d.path && !matchesDaemonGlob pe d.path) = false := by
    intro d
    cases matchesDaemonGlob pe d.path <;> rfl
  simp [hfalse]

/-- C6: after any `set_deferral` call for the identifier's policy event,
the daemon files matching that identifier's glob are exactly the one
newly created timer — every pre-existing matching daemon is removed
first and the fresh daemon itself matches the glob.  In particular two
consecutive calls leave exactly the one timer of the second call. -/
theorem c6_at_most_one_retry_timer (cfg : Config) (st : Sys)
    (t1 t2 : Nat) (p1 p2 : Int) :
    ((set_deferral cfg t2 p2 cfg.POLICY_EVENT st).daemons.filter
        (fun d => matchesDaemonGlob cfg.POLICY_EVENT d.path) =
      [⟨daemonPath t2 cfg.POLICY_EVENT, cfg.DEFER_POLICY_EVENT, p2⟩]) ∧
    ((set_deferral cfg t2 p2 cfg.POLICY_EVENT
        (set_deferral cfg t1 p1 cfg.POLICY_EVENT st)).daemons.filter
        (fun d => matchesDaemonGlob cfg.POLICY_EVENT d.path) =
      [⟨daemonPath t2 cfg.POLICY_EVENT, cfg.DEFER_POLICY_EVENT, p2⟩]) := by
  have key : ∀ st2 : Sys,
      (set_deferral cfg t2 p2 cfg.POLICY_EVENT st2).daemons.filter
        (fun d => matchesDaemonGlob cfg.POLICY_EVENT d.path) =
      [⟨daemonPath t2 cfg.POLICY_EVENT, cfg.DEFER_POLICY_EVENT, p2⟩] := by
    intro st2
    unfold set_deferral
    dsimp only
    rw [List.filter_append, filter_remove_daemons]
    simp [daemonPath_matches]
  exact ⟨key st, key _⟩

/-! ## C9: a dispatched install and the deferral ledger -/

/-- For any organization name other than "appUpdates" and "appUpdates/",
the ledger path written by `check_deferral_count` differs from the
hard-coded path deleted by `run_update_policy`. -/
theorem deferFilePath_ne_counterPath (cfg : Config)
    (h1 : cfg.orgName ≠ "appUpdates") (h2 : cfg.orgName ≠ "appUpdates/") :
    deferFilePath cfg ≠ appUpdatesCounterPath cfg := by
  unfold deferFilePath appUpdatesCounterPath pathJoin
  intro heq
  by_cases hsl : (supportDir ++ cfg.orgName).data.getLast? = some '/'
  · rw [if_pos hsl] at heq
    have hd := congrArg String.data heq
    simp only [strData_append, List.append_assoc] at hd
    have hd2 := List.append_cancel_left hd
    have hd3 := List.append_cancel_right hd2
    apply h2
    apply strEq_of_data
    rw [hd3]
  · rw [if_neg hsl] at heq
    have hd := congrArg String.data heq
    simp only [strData_append, List.append_assoc] at hd
    have hd2 := List.append_cancel_left hd
    rw [show (['a', 'p', 'p', 'U', 'p', 'd', 'a', 't', 'e', 's', '/'] : List Char)
        = ['a', 'p', 'p', 'U', 'p', 'd', 'a', 't', 'e', 's'] ++ ['/'] from rfl,
      List.append_assoc] at hd2
    have hd3 := List.append_cancel_right hd2
    apply h1
    apply strEq_of_data
    rw [hd3]

/-- Counterexample to C9 as stated: the organization name "appUpdates/"
differs from "appUpdates", yet dispatching an install deletes the
ledger — `os.path.join` does not double the separator, so the ledger
path equals the hard-coded counter path and the `used` count (here 3)
is lost. -/
theorem c9_counterexample :
    cfgSlash.orgName ≠ "appUpdates" ∧
    findFile
      (run_update_policy cfgSlash 0 "pe"
        ⟨[(deferFilePath cfgSlash, ⟨14, 3⟩)], [], [], []⟩).plists
      (deferFilePath cfgSlash) = none ∧
    findFile ([(deferFilePath cfgSlash, (⟨14, 3⟩ : LedgerRecord))])
      (deferFilePath cfgSlash) = some ⟨14, 3⟩ := by
  refine ⟨?_, ?_, ?_⟩ <;> decide

/-- C9 amended: for every organization name other than "appUpdates" AND
"appUpdates/", dispatching an install leaves the deferral ledger file
unchanged — `run_update_policy` deletes only the fixed appUpdates path,
which then differs from the org-scoped ledger path, so the persisted
`used` count survives into the next cycle. -/
theorem c9_install_preserves_ledger (cfg : Config) (today : Int)
    (ev : String) (st : Sys)
    (h1 : cfg.orgName ≠ "appUpdates") (h2 : cfg.orgName ≠ "appUpdates/") :
    findFile (run_update_policy cfg today ev st).plists (deferFilePath cfg) =
      findFile st.plists (deferFilePath cfg) := by
  unfold run_update_policy
  by_cases hev : ev = ""
  · rw [if_pos hev]
  · rw [if_neg hev]
    dsimp only [write_install_date, Sys.setReceipt, Sys.log, Sys.erasePlist]
    exact findFile_eraseFile_ne _ _ _ (deferFilePath_ne_counterPath cfg h1 h2)

/-- Witness for the amended C9 at a concrete input (the source's
shipped organization name, the empty string). -/
theorem c9_install_preserves_ledger_witness :
    findFile (run_update_policy sampleCfg 0 "pe" sampleSt).plists
      (deferFilePath sampleCfg) =
    findFile sampleSt.plists (deferFilePath sampleCfg) :=
  c9_install_preserves_ledger sampleCfg 0 "pe" sampleSt
    (by decide) (by decide)

/-! ## C8: target not running at cycle start -/

/-- C8: if the first listed bundle ID is not running at cycle start and
the policy event is non-empty, the run exits with status 0 and the final
state is exactly: the appUpdates counter file removed, the install
receipt set to today, every retry daemon matching the identifier's glob
removed, and precisely one new event — the install-policy dispatch.  In
particular no `promptShown` event is ever logged, so no dialog is
presented. -/
theorem c8_not_running_installs_now (cfg : Config) (env : Env)
    (today : Int) (st : Sys) (bid : String) (rest : List String)
    (happs : cfg.APPS = bid :: rest)
    (hnot : env.running bid = false)
    (hev : cfg.POLICY_EVENT ≠ "") :
    run cfg env today st =
      (.exited0,
        { plists := eraseFile st.plists (appUpdatesCounterPath cfg),
          receipts := setFile st.receipts (receiptFilePath cfg) today,
          daemons := remove_daemons cfg.POLICY_EVENT st.daemons,
          events := st.events ++ [.jamfPolicy cfg.POLICY_EVENT] }) := by
  unfold run
  rw [happs]
  unfold runLoop
  rw [if_pos (by simp [check_if_running, hnot])]
  unfold run_update_policy
  rw [if_neg hev]
  dsimp only [write_install_date, Sys.setReceipt, Sys.log, Sys.erasePlist]

/-- Witness for C8 at a concrete input. -/
theorem c8_not_running_installs_now_witness :
    run sampleCfg sampleEnvIdle 0 sampleSt =
      (.exited0,
        { plists := eraseFile sampleSt.plists (appUpdatesCounterPath sampleCfg),
          receipts := setFile sampleSt.receipts (receiptFilePath sampleCfg) 0,
          daemons := remove_daemons sampleCfg.POLICY_EVENT sampleSt.daemons,
          events := sampleSt.events ++ [.jamfPolicy sampleCfg.POLICY_EVENT] }) :=
  c8_not_running_installs_now sampleCfg sampleEnvIdle 0 sampleSt
    "com.example.app" [] rfl rfl (by decide)

/-! ## C4: the SLA override zeroes the effective limit but is not
persisted -/

/-- C4: with a receipt 121 days old (day -121 at today = 0) and a
configured limit of 14, the effective limit computed for the cycle is 0
(`check_install_date` returns 0); the cycle shows the no-deferral
forced-proceed message and never the deferral menu; and after the whole
cycle the persisted ledger still reads `{limit: 14, used: 0}` — the
override is not written back. -/
theorem c4_sla_override_not_persisted :
    ((run sampleCfg sampleEnv 0 staleReceiptSt).2.events.contains
        (Event.promptShown .plainMsg) = true) ∧
    ((run sampleCfg sampleEnv 0 staleReceiptSt).2.events.contains
        (Event.promptShown .deferMsg) = false) ∧
    (findFile (run sampleCfg sampleEnv 0 staleReceiptSt).2.plists
        (deferFilePath sampleCfg) = some ⟨14, 0⟩) ∧
    (check_install_date sampleCfg 0 staleReceiptSt 14 = 0) := by
  refine ⟨?_, ?_, ?_, ?_⟩ <;> decide

/-! ## C1: the dialog is shown even when PROMPT is false -/

/-- C1 (code bug evidence): with `PROMPT = false`, a running target, no
force mode and no Zoom conflict, the cycle nevertheless logs a
`promptShown` event — `run()` evaluates `user_prompt() or not PROMPT`
left to right, so the negotiation dialog is presented before `PROMPT`
is consulted — and then still dispatches the install. -/
theorem c1_dialog_shown_despite_prompt_false :
    ((run cfgNoPrompt sampleEnv 0 emptySt).2.events.contains
        (Event.promptShown .deferMsg) = true) ∧
    ((run cfgNoPrompt sampleEnv 0 emptySt).2.events.contains
        (Event.jamfPolicy "pe") = true) := by
  constructor <;> decide

end AutoUpdate
